import Mathlib

/-!
Verification of the HubSpot availability/booking service (`src/api.py`)
against its natural-language specification.

The Python source is shallowly embedded: JSON values become an inductive
type, Python `dict`s become association lists in insertion order, the
availability transformer `process_hubspot_availability` becomes a pure
function returning `Except PyErr _` (an `error` models an uncaught Python
exception), and the external libraries `pytz` / `datetime` are abstracted
as an explicit environment (`PyEnv`) of timezone database, instant
localization and `strftime` rendering, since their behaviour lives outside
the repository.  Machine integers are modelled as `Int`/`Nat` (Python ints
are unbounded) and the float `start_millis / 1000.0` as an exact rational.
-/

/-- JSON values, as produced by `response.json()` in the source.  `bool` is
kept separate from `int` because Python distinguishes them, but note that
`isinstance(True, int)` holds in Python, which `jsonNum?` reproduces. -/
inductive JSON where
  | null : JSON
  | bool (b : Bool) : JSON
  | int (n : Int) : JSON
  | float (q : ℚ) : JSON
  | str (s : String) : JSON
  | arr (xs : List JSON) : JSON
  | obj (kvs : List (String × JSON)) : JSON

/-- Exceptions that the embedded fragment of `api.py` can raise past its
own boundary. -/
inductive PyErr where
  | attributeError : PyErr
  | typeError : PyErr
  | valueError (msg : String) : PyErr
deriving DecidableEq

/-- The slice of a Python `datetime` observed by the embedded code:
`weekday()` (Monday = 0 .. Sunday = 6) and `hour` (0..23).  The rest of the
object is only ever passed to `strftime`, which is abstracted in `PyEnv`. -/
structure PyDateTime where
  weekday : Nat
  hour : Nat
deriving DecidableEq

/-- Abstraction of the external libraries used by `api.py`:
`tzdb` models `pytz.timezone` (IANA name resolution, `none` =
`UnknownTimeZoneError`), `localize` models
`datetime.fromtimestamp(_, tz=pytz.utc).astimezone(tz)` on epoch seconds
(`none` = a `ValueError`/`TypeError` caught by the per-slot handler), and
`strf` models `strftime("%A %Y-%m-%d %H:%M")`. -/
structure PyEnv where
  tzdb : String → Option Nat
  localize : Nat → ℚ → Option PyDateTime
  strf : PyDateTime → String

/-- Python-dict string keys used by the source. -/
def kLinkAvailability : String := "linkAvailability"

/-- Key of the per-duration table inside `linkAvailability`. -/
def kLinkAvailabilityByDuration : String := "linkAvailabilityByDuration"

/-- Key of the slot list inside one duration entry. -/
def kAvailabilities : String := "availabilities"

/-- Key of the UTC-milliseconds timestamp inside one slot. -/
def kStartMillisUtc : String := "startMillisUtc"

/-- Python decimal digit value of a digit character. -/
def digitVal (c : Char) : Nat := c.toNat - 48

/-- Left fold of decimal digits onto an accumulator: the value of the
digit string read most-significant first. -/
def valFrom (a : Nat) (l : List Char) : Nat :=
  l.foldl (fun n c => 10 * n + digitVal c) a

/-- Automaton for the tail of a CPython integer literal: digits with
single interior underscores.  The flag records whether the previous
character was an underscore (which must be followed by a digit). -/
def pyTailA : List Char → Bool → Bool
  | [], afterUnd => !afterUnd
  | c :: rest, afterUnd =>
    if c = '_' then !afterUnd && pyTailA rest true
    else c.isDigit && pyTailA rest false

/-- A valid unsigned CPython integer body: a digit followed by digits with
single interior underscores. -/
def pyDigits (l : List Char) : Bool :=
  match l with
  | [] => false
  | c :: rest => c.isDigit && pyTailA rest false

/-- Remove the underscore digit separators before evaluating. -/
def stripUnd (l : List Char) : List Char := l.filter (fun c => c != '_')

/-- The whitespace characters stripped by CPython `int()`. -/
def pyWs (c : Char) : Bool :=
  c = ' ' || c = '\t' || c = '\n' || c = '\r' || c = '\x0b' || c = '\x0c'

/-- Strip leading and trailing whitespace, as CPython `int()` does. -/
def pyStrip (l : List Char) : List Char :=
  ((l.dropWhile pyWs).reverse.dropWhile pyWs).reverse

/-- Parse a stripped character list as an optionally signed integer. -/
def pyIntCore : List Char → Option Int
  | [] => none
  | c :: rest =>
    if c = '-' then
      if pyDigits rest then some (-(valFrom 0 (stripUnd rest) : Int)) else none
    else if c = '+' then
      if pyDigits rest then some ((valFrom 0 (stripUnd rest) : Int)) else none
    else if pyDigits (c :: rest) then
      some ((valFrom 0 (stripUnd (c :: rest)) : Int))
    else none

/-- Model of CPython `int(s)` on a `str` argument: strip whitespace, then
an optional sign followed by digits with single interior underscores.
`none` models the raised `ValueError`. -/
def pyInt? (s : String) : Option Int :=
  pyIntCore (pyStrip s.data)

/-- `convert_duration_ms_to_label` from `src/api.py` lines 13-23.  In
Python, `int(raw)` on an unparseable string raises `ValueError`, and the
explicit `raise ValueError` covers the negative case, so both land in the
`except ValueError` arm returning `"UnknownDuration"`; the
`except TypeError` arm (`"InvalidDurationFormat"`) is unreachable for
string input and therefore absent from this string-typed embedding. -/
def convert_duration_ms_to_label (duration_ms_str : String) : String :=
  match pyInt? duration_ms_str with
  | some milliseconds =>
    if milliseconds < 0 then "UnknownDuration"
    else
      let minutes := milliseconds / (1000 * 60)
      toString minutes ++ "min"
  | none => "UnknownDuration"

/-- `is_within_business_hours` from `src/api.py` lines 26-36: a `None`
work-day list defaults to Monday..Friday; a date-time outside the work
days is rejected; otherwise the half-open hour window decides. -/
def is_within_business_hours (dt_obj : PyDateTime) (start_hour end_hour : Int)
    (work_days : Option (List Nat)) : Bool :=
  let wd := work_days.getD [0, 1, 2, 3, 4]
  if dt_obj.weekday ∉ wd then false
  else decide (start_hour ≤ (dt_obj.hour : Int) ∧ (dt_obj.hour : Int) < end_hour)

/-- Python `dict.get(key, default)` on a JSON value: an `AttributeError`
unless the value is a mapping. -/
def jsonGetD (j : JSON) (key : String) (d : JSON) : Except PyErr JSON :=
  match j with
  | JSON.obj kvs => Except.ok ((kvs.lookup key).getD d)
  | _ => Except.error PyErr.attributeError

/-- Numeric coercion used by `isinstance(start_millis, (int, float))` plus
`start_millis / 1000.0`: Python `bool` is an `int` subclass, so it passes
the check; every other non-number (including `None`) is rejected. -/
def jsonNum? : JSON → Option ℚ
  | JSON.int n => some (n : ℚ)
  | JSON.float q => some q
  | JSON.bool b => some (if b then 1 else 0)
  | _ => none

/-- Python iteration over the value of `details.get("availabilities", [])`:
lists iterate their elements, strings their characters, mappings their
keys; numbers, booleans and `None` raise `TypeError` (uncaught in the
source, since the `for` statement sits outside the per-slot `try`). -/
def pyIter : JSON → Except PyErr (List JSON)
  | JSON.arr xs => Except.ok xs
  | JSON.str s => Except.ok (s.data.map (fun c => JSON.str (String.singleton c)))
  | JSON.obj kvs => Except.ok (kvs.map (fun kv => JSON.str kv.1))
  | _ => Except.error PyErr.typeError

/-- The slot loop of `process_hubspot_availability` (`src/api.py` lines
67-93): skip non-mapping slots, missing / `None` / non-numeric
`startMillisUtc`, and slots whose conversion raises a caught error
(`localize` = `none`); the business-hours filter sits behind the hardwired
`apply_business_hours_filter = False`; surviving slots are rendered with
`strf` in order. -/
def processSlots (env : PyEnv) (tz : Nat) (bs be : Int) (wd : Option (List Nat)) :
    List JSON → List String
  | [] => []
  | slot :: rest =>
    match slot with
    | JSON.obj skvs =>
      match skvs.lookup kStartMillisUtc with
      | none => processSlots env tz bs be wd rest
      | some v =>
        match jsonNum? v with
        | none => processSlots env tz bs be wd rest
        | some start_millis =>
          match env.localize tz (start_millis / 1000) with
          | none => processSlots env tz bs be wd rest
          | some local_dt =>
            let apply_business_hours_filter := false
            if apply_business_hours_filter
                && !(is_within_business_hours local_dt bs be wd) then
              processSlots env tz bs be wd rest
            else
              env.strf local_dt :: processSlots env tz bs be wd rest
    | _ => processSlots env tz bs be wd rest

/-- One duration entry's surviving slot strings: a non-mapping entry value
contributes nothing (the `continue` on line 64-65); otherwise the slot
list defaults to `[]` and is iterated Python-style. -/
def entrySlots (env : PyEnv) (tz : Nat) (bs be : Int) (wd : Option (List Nat))
    (details : JSON) : Except PyErr (List String) :=
  match details with
  | JSON.obj dkvs =>
    match pyIter ((dkvs.lookup kAvailabilities).getD (JSON.arr [])) with
    | Except.error e => Except.error e
    | Except.ok slots => Except.ok (processSlots env tz bs be wd slots)
  | _ => Except.ok []

/-- Python `dict` assignment `m[k] = v` on an association list in
insertion order: an existing key keeps its position and has its value
replaced, a new key is appended. -/
def insertPy (m : List (String × List String)) (k : String) (v : List String) :
    List (String × List String) :=
  match m with
  | [] => [(k, v)]
  | (k', v') :: rest => if k' = k then (k, v) :: rest else (k', v') :: insertPy rest k v

/-- The entry loop of `process_hubspot_availability` (`src/api.py` lines
60-96) over the duration table, threading the output dictionary: the
label is computed for every entry, and only a non-empty surviving slot
list is written into the output (line 95). -/
def processEntriesAux (env : PyEnv) (tz : Nat) (bs be : Int) (wd : Option (List Nat)) :
    List (String × JSON) → List (String × List String) →
      Except PyErr (List (String × List String))
  | [], acc => Except.ok acc
  | (duration_ms_str, details) :: rest, acc =>
    let duration_label := convert_duration_ms_to_label duration_ms_str
    match entrySlots env tz bs be wd details with
    | Except.error e => Except.error e
    | Except.ok available_slots_formatted =>
      processEntriesAux env tz bs be wd rest
        (if available_slots_formatted.isEmpty then acc
         else insertPy acc duration_label available_slots_formatted)

/-- `process_hubspot_availability` from `src/api.py` lines 39-98.  The
top-level document is a mapping (the function's declared type); the
`linkAvailability` value defaults to `{}` but a present non-mapping value
makes the second `.get` raise `AttributeError`; a present non-mapping
`linkAvailabilityByDuration` returns `{}` before the timezone is
validated; an unresolvable timezone raises
`ValueError("Unknown or invalid timezone: ...")`. -/
def process_hubspot_availability (env : PyEnv) (hubspot_response_json : List (String × JSON))
    (target_timezone : String) (business_start_hour business_end_hour : Int)
    (business_work_days : Option (List Nat)) :
    Except PyErr (List (String × List String)) :=
  match jsonGetD ((hubspot_response_json.lookup kLinkAvailability).getD (JSON.obj []))
      kLinkAvailabilityByDuration (JSON.obj []) with
  | Except.error e => Except.error e
  | Except.ok availability_by_duration =>
    match availability_by_duration with
    | JSON.obj entries =>
      match env.tzdb target_timezone with
      | none => Except.error (PyErr.valueError ("Unknown or invalid timezone: " ++ target_timezone))
      | some tz =>
        processEntriesAux env tz business_start_hour business_end_hour business_work_days
          entries []
    | _ => Except.ok []

instance {α : Type} [DecidableEq α] : DecidableEq (Except PyErr α) := fun a b =>
  match a, b with
  | Except.ok x, Except.ok y =>
    if h : x = y then isTrue (by rw [h]) else isFalse (by intro hc; cases hc; exact h rfl)
  | Except.error x, Except.error y =>
    if h : x = y then isTrue (by rw [h]) else isFalse (by intro hc; cases hc; exact h rfl)
  | Except.ok _, Except.error _ => isFalse (by intro hc; cases hc)
  | Except.error _, Except.ok _ => isFalse (by intro hc; cases hc)

/-- A document whose availability table is exactly `entries`. -/
def mkAvailDoc (entries : List (String × JSON)) : List (String × JSON) :=
  [(kLinkAvailability, JSON.obj [(kLinkAvailabilityByDuration, JSON.obj entries)])]

/-- A concrete environment used to evaluate the embedding on closed
inputs: one known timezone name, a constant localization, and a rendering
that exposes the weekday and hour. -/
def testEnv : PyEnv where
  tzdb := fun s => if s = "UTC" then some 0 else none
  localize := fun _ _ => some ⟨2, 10⟩
  strf := fun d => "W" ++ toString d.weekday ++ "H" ++ toString d.hour

/-- A slot is malformed in the sense of the spec when it is not a mapping,
lacks the `startMillisUtc` field, or carries a non-numeric value there. -/
def malformedSlot (slot : JSON) : Prop :=
  (∀ kvs, slot ≠ JSON.obj kvs)
  ∨ (∃ kvs, slot = JSON.obj kvs ∧ kvs.lookup kStartMillisUtc = none)
  ∨ (∃ kvs v, slot = JSON.obj kvs ∧ kvs.lookup kStartMillisUtc = some v
      ∧ jsonNum? v = none)

/-- The inbound booking request body (`src/api.py` lines 222-231). -/
structure BookingRequest where
  slug : String
  duration : String
  timezone : String
  slot : String
  firstName : String
  lastName : String
  email : String
  country : String
  company : String

/-- The outbound booking payload sent to the upstream API
(`src/api.py` lines 277-288). -/
structure HubspotBookingPayload where
  email : String
  lastName : String
  firstName : String
  timezone : String
  startTime : String
  slug : String
  duration : Int
  formFields : List (String × String)
deriving DecidableEq

/-- The payload remap of `book_meeting_endpoint` (`src/api.py` lines
277-288).  `start_time_ms` and `duration_ms` stand for the values computed
by the preceding slot/duration parsing blocks (lines 244-274), which this
construction consumes unchanged.  Note the source assigns
`booking.firstName` to the outbound `lastName` field and vice versa. -/
def build_hubspot_payload (booking : BookingRequest) (start_time_ms duration_ms : Int) :
    HubspotBookingPayload :=
  { email := booking.email
    lastName := booking.firstName
    firstName := booking.lastName
    timezone := booking.timezone
    startTime := toString start_time_ms
    slug := booking.slug
    duration := duration_ms
    formFields := [("country", booking.country), ("company", booking.company)] }

/-- The decimal digit characters of `n`, most significant first — the
reference rendering that `Nat.repr` is proved to coincide with. -/
def natDigitsBE (n : Nat) : List Char :=
  if _h : n < 10 then [Nat.digitChar n]
  else natDigitsBE (n / 10) ++ [Nat.digitChar (n % 10)]
decreasing_by exact Nat.div_lt_self (by omega) (by omega)

example : convert_duration_ms_to_label ("1800000") = "30min" := by decide
example : convert_duration_ms_to_label ("abc") = "UnknownDuration" := by decide
example : convert_duration_ms_to_label ("-5") = "UnknownDuration" := by decide
example : convert_duration_ms_to_label (" 1_800_000 ") = "30min" := by decide
example : pyInt? ("1_") = none := by decide
example : pyInt? ("+42") = some 42 := by decide

example :
    process_hubspot_availability testEnv
      (mkAvailDoc [("60000", JSON.obj [(kAvailabilities,
        JSON.arr [JSON.obj [(kStartMillisUtc, JSON.int 60000)]])])])
      ("UTC") 9 17 none = Except.ok [("1min", ["W2H10"])] := by decide

example :
    process_hubspot_availability testEnv [(kLinkAvailability, JSON.str ("boom"))]
      ("UTC") 9 17 none = Except.error PyErr.attributeError := by decide

example :
    process_hubspot_availability testEnv
      [(kLinkAvailability, JSON.obj [(kLinkAvailabilityByDuration, JSON.int 5)])]
      ("Not/AZone") 9 17 none = Except.ok [] := by decide

example :
    process_hubspot_availability testEnv [] ("Not/AZone") 9 17 none
      = Except.error (PyErr.valueError ("Unknown or invalid timezone: Not/AZone")) := by
  decide

/-- Decimal value of a decimal digit character produced by
`Nat.digitChar`. -/
theorem digitVal_digitChar (d : Nat) (hd : d < 10) : digitVal (Nat.digitChar d) = d := by
  interval_cases d <;> rfl

/-- `Nat.digitChar` of a decimal digit is an ASCII digit. -/
theorem digitChar_isDigit (d : Nat) (hd : d < 10) : (Nat.digitChar d).isDigit = true := by
  interval_cases d <;> decide

/-- The decimal rendering is never empty. -/
theorem natDigitsBE_ne_nil (n : Nat) : natDigitsBE n ≠ [] := by
  rw [natDigitsBE]
  by_cases h : n < 10
  · rw [dif_pos h]
    simp
  · rw [dif_neg h]
    simp

/-- Every character of the decimal rendering is an ASCII digit. -/
theorem natDigitsBE_all_digit (n : Nat) : ∀ c ∈ natDigitsBE n, c.isDigit = true := by
  induction n using Nat.strong_induction_on with
  | _ n ih =>
    rw [natDigitsBE]
    by_cases h : n < 10
    · rw [dif_pos h]
      intro c hc
      simp only [List.mem_singleton] at hc
      subst hc
      exact digitChar_isDigit n h
    · rw [dif_neg h]
      intro c hc
      rcases List.mem_append.mp hc with h1 | h2
      · exact ih (n / 10) (Nat.div_lt_self (by omega) (by omega)) c h1
      · simp only [List.mem_singleton] at h2
        subst h2
        exact digitChar_isDigit _ (Nat.mod_lt _ (by omega))

/-- Folding over an appended list splits. -/
theorem valFrom_append (a : Nat) (l1 l2 : List Char) :
    valFrom a (l1 ++ l2) = valFrom (valFrom a l1) l2 := by
  simp [valFrom, List.foldl_append]

/-- Value of the decimal rendering under an arbitrary accumulator. -/
theorem valFrom_natDigitsBE (n : Nat) :
    ∀ a, valFrom a (natDigitsBE n) = a * 10 ^ (natDigitsBE n).length + n := by
  induction n using Nat.strong_induction_on with
  | _ n ih =>
    intro a
    rw [natDigitsBE]
    by_cases h : n < 10
    · rw [dif_pos h]
      simp only [valFrom, List.foldl_cons, List.foldl_nil, List.length_singleton, pow_one]
      rw [digitVal_digitChar n h]
      omega
    · rw [dif_neg h]
      rw [valFrom_append]
      rw [ih (n / 10) (Nat.div_lt_self (by omega) (by omega)) a]
      simp only [valFrom, List.foldl_cons, List.foldl_nil, List.length_append,
        List.length_singleton]
      rw [digitVal_digitChar _ (Nat.mod_lt _ (by omega))]
      rw [pow_succ]
      have hre : a * (10 ^ (natDigitsBE (n / 10)).length * 10)
          = a * 10 ^ (natDigitsBE (n / 10)).length * 10 := by ring
      rw [hre]
      generalize a * 10 ^ (natDigitsBE (n / 10)).length = y
      omega

/-- The underscore automaton accepts any all-digit tail. -/
theorem pyTailA_all_digit : ∀ l, (∀ c ∈ l, c.isDigit = true) → pyTailA l false = true := by
  intro l
  induction l with
  | nil => intro _; rfl
  | cons c rest ih =>
    intro h
    have hc : c.isDigit = true := h c (List.mem_cons_self _ _)
    have hne : ¬(c = '_') := by
      intro he
      rw [he] at hc
      exact absurd hc (by decide)
    simp only [pyTailA, if_neg hne, hc, Bool.true_and]
    exact ih (fun d hd => h d (List.mem_cons_of_mem _ hd))

/-- A non-empty all-digit list is a valid integer body. -/
theorem pyDigits_of_digits (l : List Char) (hne : l ≠ [])
    (h : ∀ c ∈ l, c.isDigit = true) : pyDigits l = true := by
  cases l with
  | nil => exact absurd rfl hne
  | cons c rest =>
    simp only [pyDigits]
    rw [h c (List.mem_cons_self _ _), Bool.true_and]
    exact pyTailA_all_digit rest (fun d hd => h d (List.mem_cons_of_mem _ hd))

/-- Underscore removal is the identity on all-digit lists. -/
theorem stripUnd_of_digits (l : List Char) (h : ∀ c ∈ l, c.isDigit = true) :
    stripUnd l = l := by
  unfold stripUnd
  apply List.filter_eq_self.mpr
  intro c hc
  have hd := h c hc
  have hne : ¬(c = '_') := by
    intro he
    rw [he] at hd
    exact absurd hd (by decide)
  simpa using hne

/-- An ASCII digit is not CPython integer-literal whitespace. -/
theorem isDigit_not_ws (c : Char) (h : c.isDigit = true) : pyWs c = false := by
  cases hw : pyWs c
  · rfl
  · exfalso
    simp only [pyWs, Bool.or_eq_true, decide_eq_true_eq] at hw
    rcases hw with ((((h1 | h1) | h1) | h1) | h1) | h1 <;>
      (rw [h1] at h; exact absurd h (by decide))

/-- Whitespace stripping is the identity on all-digit lists. -/
theorem pyStrip_of_digits (l : List Char) (h : ∀ c ∈ l, c.isDigit = true) :
    pyStrip l = l := by
  have hdw : ∀ (m : List Char), (∀ c ∈ m, c.isDigit = true) → m.dropWhile pyWs = m := by
    intro m hm
    cases m with
    | nil => rfl
    | cons c rest =>
      rw [List.dropWhile_cons]
      rw [isDigit_not_ws c (hm c (List.mem_cons_self _ _))]
      simp
  unfold pyStrip
  rw [hdw l h]
  rw [hdw l.reverse (fun c hc => h c (List.mem_reverse.mp hc))]
  exact List.reverse_reverse l

/-- Core's fuelled digit renderer agrees with the reference rendering when
given enough fuel. -/
theorem toDigitsCore_eq_natDigitsBE :
    ∀ (fuel n : Nat) (acc : List Char), 0 < fuel → n < 10 ^ fuel →
      Nat.toDigitsCore 10 fuel n acc = natDigitsBE n ++ acc := by
  intro fuel
  induction fuel with
  | zero => intro n acc h _; exact absurd h (by omega)
  | succ f ih =>
    intro n acc _ hlt
    simp only [Nat.toDigitsCore]
    by_cases h0 : n / 10 = 0
    · rw [if_pos h0]
      have hn : n < 10 := by omega
      rw [natDigitsBE, dif_pos hn, Nat.mod_eq_of_lt hn]
      rfl
    · rw [if_neg h0]
      have hf : 0 < f := by
        by_contra hf0
        have hfz : f = 0 := by omega
        rw [hfz, pow_one] at hlt
        omega
      have hdiv : n / 10 < 10 ^ f := by
        refine (Nat.div_lt_iff_lt_mul (by omega)).mpr ?_
        rw [← pow_succ]
        exact hlt
      rw [ih (n / 10) (Nat.digitChar (n % 10) :: acc) hf hdiv]
      conv_rhs => rw [natDigitsBE, dif_neg (by omega : ¬ n < 10)]
      simp [List.append_assoc]

/-- `Nat.toDigits` in base 10 is the reference decimal rendering. -/
theorem toDigits_eq_natDigitsBE (n : Nat) : Nat.toDigits 10 n = natDigitsBE n := by
  have h1 : n < 10 ^ (n + 1) :=
    calc n < 2 ^ n := Nat.lt_two_pow n
    _ ≤ 10 ^ n := Nat.pow_le_pow_left (by omega) n
    _ ≤ 10 ^ (n + 1) := Nat.pow_le_pow_right (by omega) (Nat.le_succ n)
  have h2 := toDigitsCore_eq_natDigitsBE (n + 1) n [] (Nat.succ_pos n) h1
  simpa [Nat.toDigits] using h2

/-- The characters of `Nat.repr`. -/
theorem repr_data (n : Nat) : (Nat.repr n).data = natDigitsBE n := by
  rw [Nat.repr, toDigits_eq_natDigitsBE]
  rfl

/-- The modelled CPython `int()` recovers `n` from its decimal string. -/
theorem pyInt?_repr (n : Nat) : pyInt? (Nat.repr n) = some (n : Int) := by
  have hd := natDigitsBE_all_digit n
  have hstrip : pyStrip (Nat.repr n).data = natDigitsBE n := by
    rw [repr_data]
    exact pyStrip_of_digits _ hd
  unfold pyInt?
  rw [hstrip]
  rcases hcons : natDigitsBE n with _ | ⟨c, rest⟩
  · exact absurd hcons (natDigitsBE_ne_nil n)
  · have hcd : c.isDigit = true := hd c (by rw [hcons]; exact List.mem_cons_self _ _)
    have hne1 : ¬(c = '-') := by
      intro he
      rw [he] at hcd
      exact absurd hcd (by decide)
    have hne2 : ¬(c = '+') := by
      intro he
      rw [he] at hcd
      exact absurd hcd (by decide)
    have hall : ∀ d ∈ c :: rest, d.isDigit = true := by
      rw [← hcons]
      exact hd
    simp only [pyIntCore, if_neg hne1, if_neg hne2]
    rw [if_pos (pyDigits_of_digits _ (by simp) hall)]
    rw [stripUnd_of_digits _ hall]
    rw [← hcons]
    rw [valFrom_natDigitsBE n 0]
    simp

/-- `lookup` of a key at the head of an association list. -/
theorem lookup_self (key : String) (v : JSON) (rest : List (String × JSON)) :
    List.lookup key ((key, v) :: rest) = some v := by
  simp [List.lookup]

/-- `insertPy` with a non-empty value preserves the no-empty-values
invariant. -/
theorem insertPy_no_nil : ∀ (acc : List (String × List String)) (k : String)
    (v : List String), (∀ p ∈ acc, p.2 ≠ []) → v ≠ [] →
    ∀ p ∈ insertPy acc k v, p.2 ≠ [] := by
  intro acc
  induction acc with
  | nil =>
    intro k v _ hv p hp
    simp only [insertPy, List.mem_singleton] at hp
    rw [hp]
    exact hv
  | cons hd tl ih =>
    obtain ⟨k', v'⟩ := hd
    intro k v hacc hv p hp
    simp only [insertPy] at hp
    by_cases h : k' = k
    · rw [if_pos h] at hp
      rcases List.mem_cons.mp hp with h1 | h2
      · rw [h1]; exact hv
      · exact hacc p (List.mem_cons_of_mem _ h2)
    · rw [if_neg h] at hp
      rcases List.mem_cons.mp hp with h1 | h2
      · rw [h1]; exact hacc (k', v') (List.mem_cons_self _ _)
      · exact ih k v (fun q hq => hacc q (List.mem_cons_of_mem _ hq)) hv p h2

/-- The entry loop only ever writes non-empty slot lists into the output
dictionary. -/
theorem processEntriesAux_no_nil (env : PyEnv) (t : Nat) (bs be : Int)
    (wd : Option (List Nat)) :
    ∀ (entries : List (String × JSON)) (acc out : List (String × List String)),
    (∀ p ∈ acc, p.2 ≠ []) →
    processEntriesAux env t bs be wd entries acc = Except.ok out →
    ∀ p ∈ out, p.2 ≠ [] := by
  intro entries
  induction entries with
  | nil =>
    intro acc out hacc h
    simp only [processEntriesAux, Except.ok.injEq] at h
    rw [← h]
    exact hacc
  | cons e rest ih =>
    obtain ⟨k, details⟩ := e
    intro acc out hacc h
    simp only [processEntriesAux] at h
    rcases hes : entrySlots env t bs be wd details with e' | l
    · simp only [hes] at h
      exact absurd h (by simp)
    · simp only [hes] at h
      by_cases hemp : l.isEmpty = true
      · rw [if_pos hemp] at h
        exact ih acc out hacc h
      · rw [if_neg hemp] at h
        refine ih _ out ?_ h
        refine insertPy_no_nil acc _ l hacc ?_
        intro hnil
        rw [hnil] at hemp
        exact hemp rfl

/-- C6: no key of a successful transformer output maps to an empty list —
an entry surviving with zero slots is not written at all — and when every
entry survives with zero slots the loop leaves the output dictionary
untouched (so the overall result is the empty mapping). -/
theorem c6_no_empty_values :
    (∀ (env : PyEnv) (doc : List (String × JSON)) (tz : String) (bs be : Int)
      (wd : Option (List Nat)) (out : List (String × List String)),
      process_hubspot_availability env doc tz bs be wd = Except.ok out →
      ∀ p ∈ out, p.2 ≠ [])
    ∧ (∀ (env : PyEnv) (t : Nat) (bs be : Int) (wd : Option (List Nat))
      (entries : List (String × JSON)) (acc : List (String × List String)),
      (∀ e ∈ entries, entrySlots env t bs be wd e.2 = Except.ok []) →
      processEntriesAux env t bs be wd entries acc = Except.ok acc) := by
  constructor
  · intro env doc tz bs be wd out h
    simp only [process_hubspot_availability] at h
    rcases hj : jsonGetD ((doc.lookup kLinkAvailability).getD (JSON.obj []))
        kLinkAvailabilityByDuration (JSON.obj []) with e | abd
    · rw [hj] at h
      exact absurd h (by simp)
    · rw [hj] at h
      cases abd with
      | obj entries =>
        rcases htz : env.tzdb tz with _ | t
        · rw [htz] at h
          exact absurd h (by simp)
        · rw [htz] at h
          exact processEntriesAux_no_nil env t bs be wd entries [] out (by simp) h
      | null => simp only [Except.ok.injEq] at h; rw [← h]; simp
      | bool b => simp only [Except.ok.injEq] at h; rw [← h]; simp
      | int n => simp only [Except.ok.injEq] at h; rw [← h]; simp
      | float q => simp only [Except.ok.injEq] at h; rw [← h]; simp
      | str s => simp only [Except.ok.injEq] at h; rw [← h]; simp
      | arr xs => simp only [Except.ok.injEq] at h; rw [← h]; simp
  · intro env t bs be wd entries
    induction entries with
    | nil => intro acc _; rfl
    | cons e rest ih =>
      obtain ⟨k, d⟩ := e
      intro acc h
      have h1 : entrySlots env t bs be wd d = Except.ok [] :=
        h (k, d) (List.mem_cons_self _ _)
      simp only [processEntriesAux, h1, List.isEmpty_nil, if_true]
      exact ih acc (fun e he => h e (List.mem_cons_of_mem _ he))

/-- C6 witness: the no-empty-values invariant applied to a concrete
document producing one labelled slot. -/
theorem c6_no_empty_values_witness :
    (("1min" : String), [testEnv.strf ⟨2, 10⟩]).2 ≠ ([] : List String) :=
  c6_no_empty_values.1 testEnv
    (mkAvailDoc [("60000", JSON.obj [(kAvailabilities,
      JSON.arr [JSON.obj [(kStartMillisUtc, JSON.int 60000)]])])])
    ("UTC") 9 17 none [(("1min" : String), [testEnv.strf ⟨2, 10⟩])] (by decide)
    (("1min" : String), [testEnv.strf ⟨2, 10⟩]) (by decide)

/-- A malformed slot is skipped by the slot loop. -/
theorem processSlots_skip_malformed (env : PyEnv) (t : Nat) (bs be : Int)
    (wd : Option (List Nat)) (slot : JSON) (rest : List JSON)
    (h : malformedSlot slot) :
    processSlots env t bs be wd (slot :: rest) = processSlots env t bs be wd rest := by
  rcases h with hno | ⟨kvs, hk, hlook⟩ | ⟨kvs, v, hk, hlook, hnum⟩
  · cases slot with
    | obj kvs => exact absurd rfl (hno kvs)
    | null => rfl
    | bool b => rfl
    | int n => rfl
    | float q => rfl
    | str s => rfl
    | arr xs => rfl
  · rw [hk]
    simp only [processSlots, hlook]
  · rw [hk]
    simp only [processSlots, hlook, hnum]

/-- A non-mapping entry value contributes no slots. -/
theorem entrySlots_nonobj (env : PyEnv) (t : Nat) (bs be : Int)
    (wd : Option (List Nat)) (d : JSON) (h : ∀ kvs, d ≠ JSON.obj kvs) :
    entrySlots env t bs be wd d = Except.ok [] := by
  cases d with
  | obj kvs => exact absurd rfl (h kvs)
  | null => rfl
  | bool b => rfl
  | int n => rfl
  | float q => rfl
  | str s => rfl
  | arr xs => rfl

/-- C7: per-slot malformation is tolerated — a slot that is not a mapping,
lacks `startMillisUtc`, or carries a non-numeric value there is skipped
without aborting the entry or the call; a non-mapping duration entry is
skipped as a whole; and a bucket holding one valid and one malformed slot
yields exactly the valid slot's formatted string. -/
theorem c7_slot_tolerance :
    (∀ (env : PyEnv) (t : Nat) (bs be : Int) (wd : Option (List Nat))
      (slot : JSON) (rest : List JSON), malformedSlot slot →
      processSlots env t bs be wd (slot :: rest) = processSlots env t bs be wd rest)
    ∧ (∀ (env : PyEnv) (t : Nat) (bs be : Int) (wd : Option (List Nat)) (k : String)
      (d : JSON) (rest : List (String × JSON)) (acc : List (String × List String)),
      (∀ kvs, d ≠ JSON.obj kvs) →
      processEntriesAux env t bs be wd ((k, d) :: rest) acc
        = processEntriesAux env t bs be wd rest acc)
    ∧ (∀ (env : PyEnv) (tz : String) (t : Nat) (bs be : Int) (wd : Option (List Nat))
      (k : String) (m : Int) (dt : PyDateTime) (bad : JSON),
      env.tzdb tz = some t →
      env.localize t ((m : ℚ) / 1000) = some dt →
      malformedSlot bad →
      process_hubspot_availability env
        (mkAvailDoc [(k, JSON.obj [(kAvailabilities,
          JSON.arr [JSON.obj [(kStartMillisUtc, JSON.int m)], bad])])]) tz bs be wd
        = Except.ok [(convert_duration_ms_to_label k, [env.strf dt])]) := by
  refine ⟨?_, ?_, ?_⟩
  · intro env t bs be wd slot rest h
    exact processSlots_skip_malformed env t bs be wd slot rest h
  · intro env t bs be wd k d rest acc hnot
    simp only [processEntriesAux, entrySlots_nonobj env t bs be wd d hnot,
      List.isEmpty_nil, if_true]
  · intro env tz t bs be wd k m dt bad htz hloc hbad
    have h2 : processSlots env t bs be wd [bad] = [] :=
      processSlots_skip_malformed env t bs be wd bad [] hbad
    have hslots : processSlots env t bs be wd
        [JSON.obj [(kStartMillisUtc, JSON.int m)], bad] = [env.strf dt] := by
      simp only [processSlots, jsonNum?, Bool.false_and, Bool.false_eq_true,
        if_false] at h2
      simp only [processSlots, lookup_self, jsonNum?, hloc, Bool.false_and,
        Bool.false_eq_true, if_false, h2]
    simp only [process_hubspot_availability, mkAvailDoc, lookup_self,
      Option.getD_some, jsonGetD, htz, processEntriesAux, entrySlots, lookup_self,
      pyIter, hslots, List.isEmpty_cons, if_false, insertPy]
    rfl

/-- C7 witness: the three tolerated malformations evaluated on concrete
inputs — a string slot, a non-mapping entry value, and a bucket with one
valid and one malformed slot. -/
theorem c7_slot_tolerance_witness :
    processSlots testEnv 0 9 17 none [JSON.str ("oops")] = processSlots testEnv 0 9 17 none []
    ∧ processEntriesAux testEnv 0 9 17 none [("60000", JSON.int 3)] []
        = processEntriesAux testEnv 0 9 17 none [] []
    ∧ process_hubspot_availability testEnv
        (mkAvailDoc [("60000", JSON.obj [(kAvailabilities,
          JSON.arr [JSON.obj [(kStartMillisUtc, JSON.int 60000)], JSON.str ("oops")])])])
        ("UTC") 9 17 none
        = Except.ok [(convert_duration_ms_to_label ("60000"), [testEnv.strf ⟨2, 10⟩])] :=
  ⟨c7_slot_tolerance.1 testEnv 0 9 17 none (JSON.str ("oops")) []
      (Or.inl (fun kvs h => by cases h)),
   c7_slot_tolerance.2.1 testEnv 0 9 17 none ("60000") (JSON.int 3) [] []
      (fun kvs h => by cases h),
   c7_slot_tolerance.2.2 testEnv ("UTC") 0 9 17 none ("60000") 60000 ⟨2, 10⟩
      (JSON.str ("oops")) (by decide) rfl (Or.inl (fun kvs h => by cases h))⟩

/-- C10 (amended): when two duration keys map to the same label and the
later entry survives with a non-empty slot list, the later list replaces
the earlier one under that label — the output holds exactly the later
list, not a merge. -/
theorem c10_duplicate_label_overwrites (env : PyEnv) (tz : String) (t : Nat)
    (bs be : Int) (wd : Option (List Nat)) (k1 k2 : String) (v1 v2 : JSON)
    (l1 l2 : List String) :
    env.tzdb tz = some t →
    convert_duration_ms_to_label k1 = convert_duration_ms_to_label k2 →
    entrySlots env t bs be wd v1 = Except.ok l1 →
    entrySlots env t bs be wd v2 = Except.ok l2 →
    l2 ≠ [] →
    process_hubspot_availability env (mkAvailDoc [(k1, v1), (k2, v2)]) tz bs be wd
      = Except.ok [(convert_duration_ms_to_label k2, l2)] := by
  intro htz hlab h1 h2 hne
  have hl2 : l2.isEmpty = false := by
    cases l2 with
    | nil => exact absurd rfl hne
    | cons a l => rfl
  simp only [process_hubspot_availability, mkAvailDoc, lookup_self,
    Option.getD_some, jsonGetD, htz, processEntriesAux, h1, h2, hlab, hl2]
  by_cases hl1 : l1.isEmpty = true
  · simp [hl1, insertPy]
  · simp [hl1, insertPy]

/-- C10 counterexample: both keys label `"30min"`, the later entry
survives with zero slots, and the output keeps the earlier entry's list —
the later (empty) list does not replace it. -/
theorem c10_counterexample :
    process_hubspot_availability testEnv
      (mkAvailDoc
        [("1800000", JSON.obj [(kAvailabilities,
          JSON.arr [JSON.obj [(kStartMillisUtc, JSON.int 60000)]])]),
         ("1800001", JSON.obj [(kAvailabilities, JSON.arr [])])])
      ("UTC") 9 17 none = Except.ok [(("30min" : String), [testEnv.strf ⟨2, 10⟩])]
    ∧ convert_duration_ms_to_label ("1800001") = "30min"
    ∧ [testEnv.strf ⟨2, 10⟩] ≠ ([] : List String) :=
  ⟨by decide, by decide, by decide⟩

/-- C10 witness: the overwrite evaluated on a concrete document whose two
keys both label `"30min"` and whose later entry survives non-empty. -/
theorem c10_duplicate_label_overwrites_witness :
    process_hubspot_availability testEnv
      (mkAvailDoc
        [("1800000", JSON.obj [(kAvailabilities,
          JSON.arr [JSON.obj [(kStartMillisUtc, JSON.int 60000)]])]),
         ("1800001", JSON.obj [(kAvailabilities,
          JSON.arr [JSON.obj [(kStartMillisUtc, JSON.int 120000)]])])])
      ("UTC") 9 17 none
      = Except.ok [(convert_duration_ms_to_label ("1800001"), [testEnv.strf ⟨2, 10⟩])] :=
  c10_duplicate_label_overwrites testEnv ("UTC") 0 9 17 none ("1800000") ("1800001")
    (JSON.obj [(kAvailabilities, JSON.arr [JSON.obj [(kStartMillisUtc, JSON.int 60000)]])])
    (JSON.obj [(kAvailabilities, JSON.arr [JSON.obj [(kStartMillisUtc, JSON.int 120000)]])])
    [testEnv.strf ⟨2, 10⟩] [testEnv.strf ⟨2, 10⟩]
    (by decide) (by decide) (by decide) (by decide) (by decide)

/-- C9: In the booking payload remap, the outbound payload swaps the name
fields relative to the inbound request — outbound `lastName` carries the
inbound `firstName` and outbound `firstName` carries the inbound
`lastName` — while email, timezone, slug, country and company are copied
without swapping. -/
theorem c9_booking_payload_swaps_names (booking : BookingRequest)
    (start_time_ms duration_ms : Int) :
    (build_hubspot_payload booking start_time_ms duration_ms).lastName = booking.firstName
    ∧ (build_hubspot_payload booking start_time_ms duration_ms).firstName = booking.lastName
    ∧ (build_hubspot_payload booking start_time_ms duration_ms).email = booking.email
    ∧ (build_hubspot_payload booking start_time_ms duration_ms).timezone = booking.timezone
    ∧ (build_hubspot_payload booking start_time_ms duration_ms).slug = booking.slug
    ∧ (build_hubspot_payload booking start_time_ms duration_ms).formFields
        = [("country", booking.country), ("company", booking.company)] :=
  ⟨rfl, rfl, rfl, rfl, rfl, rfl⟩

/-- C4: `is_within_business_hours` returns false off the work days, and on
a work day it is true exactly on the half-open hour window
`startHour ≤ hour < endHour`. -/
theorem c4_business_hours (dt : PyDateTime) (sh eh : Int) (wdo : Option (List Nat)) :
    (dt.weekday ∉ wdo.getD [0, 1, 2, 3, 4] →
      is_within_business_hours dt sh eh wdo = false)
    ∧ (dt.weekday ∈ wdo.getD [0, 1, 2, 3, 4] →
      (is_within_business_hours dt sh eh wdo = true ↔
        sh ≤ (dt.hour : Int) ∧ (dt.hour : Int) < eh)) := by
  constructor
  · intro h
    simp only [is_within_business_hours, if_pos h]
  · intro h
    simp only [is_within_business_hours, if_neg (not_not_intro h), decide_eq_true_eq]

/-- C4 witness: Tuesday (weekday 1) at hour 9 with the default window is
within business hours. -/
theorem c4_business_hours_witness :
    is_within_business_hours ⟨1, 9⟩ 9 17 none = true :=
  ((c4_business_hours ⟨1, 9⟩ 9 17 none).2 (by decide)).mpr (by decide)

/-- The parameters of the slot loop are dead: the hardwired
`apply_business_hours_filter = False` keeps the filter off. -/
theorem processSlots_params_irrelevant (env : PyEnv) (tz : Nat) (bs be bs' be' : Int)
    (wd wd' : Option (List Nat)) :
    ∀ l, processSlots env tz bs be wd l = processSlots env tz bs' be' wd' l := by
  intro l
  induction l with
  | nil => rfl
  | cons slot rest ih =>
    cases slot with
    | obj skvs =>
      simp only [processSlots]
      split
      · exact ih
      · split
        · exact ih
        · split
          · exact ih
          · simp only [Bool.false_and, Bool.false_eq_true, if_false]
            rw [ih]
    | null => exact ih
    | bool b => exact ih
    | int n => exact ih
    | float q => exact ih
    | str s => exact ih
    | arr xs => exact ih

/-- Entry-level version of the parameter independence. -/
theorem entrySlots_params_irrelevant (env : PyEnv) (tz : Nat) (bs be bs' be' : Int)
    (wd wd' : Option (List Nat)) (details : JSON) :
    entrySlots env tz bs be wd details = entrySlots env tz bs' be' wd' details := by
  cases details with
  | obj dkvs =>
    simp only [entrySlots]
    split
    · rfl
    · exact congrArg Except.ok (processSlots_params_irrelevant env tz bs be bs' be' wd wd' _)
  | null => rfl
  | bool b => rfl
  | int n => rfl
  | float q => rfl
  | str s => rfl
  | arr xs => rfl

/-- Loop-level version of the parameter independence. -/
theorem processEntriesAux_params_irrelevant (env : PyEnv) (tz : Nat) (bs be bs' be' : Int)
    (wd wd' : Option (List Nat)) :
    ∀ entries acc, processEntriesAux env tz bs be wd entries acc
      = processEntriesAux env tz bs' be' wd' entries acc := by
  intro entries
  induction entries with
  | nil => intro acc; rfl
  | cons e rest ih =>
    intro acc
    obtain ⟨k, details⟩ := e
    simp only [processEntriesAux]
    rw [entrySlots_params_irrelevant env tz bs be bs' be' wd wd' details]
    split
    · rfl
    · exact ih _

/-- C3: on the decimal string of any non-negative integer `N` the labeler
returns the string of `N / 60000` (floor division) followed by `"min"`;
and on every string input it totals to either a sentinel or a well-formed
label (the embedding is a total function, matching the source whose two
`except` arms cover everything `int(str)` can raise). -/
theorem c3_label_success :
    (∀ n : Nat, convert_duration_ms_to_label (toString n) = toString (n / 60000) ++ "min")
    ∧ (∀ s : String, convert_duration_ms_to_label s = "UnknownDuration"
      ∨ ∃ m : Int, 0 ≤ m ∧ pyInt? s = some m
          ∧ convert_duration_ms_to_label s = toString (m / 60000) ++ "min") := by
  constructor
  · intro n
    show convert_duration_ms_to_label (Nat.repr n) = Nat.repr (n / 60000) ++ "min"
    simp only [convert_duration_ms_to_label, pyInt?_repr n]
    rw [if_neg (by omega : ¬ (n : Int) < 0)]
    rfl
  · intro s
    rcases hp : pyInt? s with _ | m
    · left
      simp [convert_duration_ms_to_label, hp]
    · by_cases hm : m < 0
      · left
        simp [convert_duration_ms_to_label, hp, hm]
      · right
        refine ⟨m, by omega, rfl, ?_⟩
        simp only [convert_duration_ms_to_label, hp, if_neg hm]
        norm_num

/-- C2 (amended): a string that does not parse as an integer lands in the
`except ValueError` arm and yields `"UnknownDuration"` — the same sentinel
as a negative parsed value; the `"InvalidDurationFormat"` sentinel
(`except TypeError`) is unreachable for string input. -/
theorem c2_amended_sentinels (s : String) :
    (pyInt? s = none → convert_duration_ms_to_label s = "UnknownDuration")
    ∧ (∀ m : Int, pyInt? s = some m → m < 0 →
      convert_duration_ms_to_label s = "UnknownDuration") := by
  constructor
  · intro h
    simp only [convert_duration_ms_to_label, h]
  · intro m hm hneg
    simp only [convert_duration_ms_to_label, hm, if_pos hneg]

/-- C2 counterexample: on the unparseable string `"abc"` the labeler
returns `"UnknownDuration"`, not the claimed `"InvalidDurationFormat"`. -/
theorem c2_counterexample :
    convert_duration_ms_to_label ("abc") = "UnknownDuration"
    ∧ convert_duration_ms_to_label ("abc") ≠ "InvalidDurationFormat" :=
  ⟨by decide, by decide⟩

/-- C2 witness: the amended statement evaluated on `"zzz"` (unparseable)
and `"-60000"` (negative). -/
theorem c2_amended_witness :
    convert_duration_ms_to_label ("zzz") = "UnknownDuration"
    ∧ convert_duration_ms_to_label ("-60000") = "UnknownDuration" :=
  ⟨(c2_amended_sentinels ("zzz")).1 (by decide),
   (c2_amended_sentinels ("-60000")).2 (-60000) (by decide) (by decide)⟩

/-- C1 (amended): when `linkAvailability` is absent or itself a mapping,
a present non-mapping `linkAvailabilityByDuration` yields the empty
mapping for every timezone, and an absent one yields the empty mapping
whenever the timezone resolves; but a present non-mapping
`linkAvailability` value makes the transformer raise `AttributeError`
instead of returning the defensive empty mapping. -/
theorem c1_malformed_path (env : PyEnv) (doc : List (String × JSON)) (tz : String)
    (bs be : Int) (wd : Option (List Nat)) :
    (∀ kvs v, (doc.lookup kLinkAvailability).getD (JSON.obj []) = JSON.obj kvs →
      kvs.lookup kLinkAvailabilityByDuration = some v → (∀ m, v ≠ JSON.obj m) →
      process_hubspot_availability env doc tz bs be wd = Except.ok [])
    ∧ (∀ kvs t, (doc.lookup kLinkAvailability).getD (JSON.obj []) = JSON.obj kvs →
      kvs.lookup kLinkAvailabilityByDuration = none → env.tzdb tz = some t →
      process_hubspot_availability env doc tz bs be wd = Except.ok [])
    ∧ (∀ v, doc.lookup kLinkAvailability = some v → (∀ m, v ≠ JSON.obj m) →
      process_hubspot_availability env doc tz bs be wd
        = Except.error PyErr.attributeError) := by
  refine ⟨?_, ?_, ?_⟩
  · intro kvs v hkvs hv hnot
    simp only [process_hubspot_availability]
    rw [hkvs]
    simp only [jsonGetD, hv, Option.getD_some]
  · intro kvs t hkvs hnone htz
    simp only [process_hubspot_availability]
    rw [hkvs]
    simp only [jsonGetD, hnone, Option.getD_none, htz]
    rfl
  · intro v hv hnot
    simp only [process_hubspot_availability]
    rw [hv]
    simp only [Option.getD_some, jsonGetD]

/-- C1 counterexample: with `linkAvailability` present but not a mapping,
the transformer raises `AttributeError` instead of returning the empty
mapping. -/
theorem c1_counterexample :
    process_hubspot_availability testEnv [(kLinkAvailability, JSON.str ("surprise"))]
      ("UTC") 9 17 none = Except.error PyErr.attributeError
    ∧ process_hubspot_availability testEnv [(kLinkAvailability, JSON.str ("surprise"))]
      ("UTC") 9 17 none ≠ Except.ok [] :=
  ⟨by decide, by decide⟩

/-- C1 witness: the amended statement at a non-mapping
`linkAvailabilityByDuration` (empty result) and at a non-mapping
`linkAvailability` (`AttributeError`). -/
theorem c1_malformed_path_witness :
    process_hubspot_availability testEnv
      [(kLinkAvailability, JSON.obj [(kLinkAvailabilityByDuration, JSON.int 5)])]
      ("UTC") 9 17 none = Except.ok []
    ∧ process_hubspot_availability testEnv [(kLinkAvailability, JSON.int 7)]
      ("UTC") 9 17 none = Except.error PyErr.attributeError :=
  ⟨(c1_malformed_path testEnv _ ("UTC") 9 17 none).1
      [(kLinkAvailabilityByDuration, JSON.int 5)] (JSON.int 5) rfl rfl
      (fun m h => by cases h),
   (c1_malformed_path testEnv _ ("UTC") 9 17 none).2.2 (JSON.int 7) rfl
      (fun m h => by cases h)⟩

/-- C5 (amended): an unresolvable timezone raises the invalid-timezone
`ValueError` whenever the `linkAvailabilityByDuration` navigation yields a
mapping (including the defensive defaults when absent); but when that
value is present and not a mapping, the transformer returns the empty
mapping without consulting the timezone at all. -/
theorem c5_invalid_timezone (env : PyEnv) (doc : List (String × JSON)) (tz : String)
    (bs be : Int) (wd : Option (List Nat)) :
    (∀ kvs entries, (doc.lookup kLinkAvailability).getD (JSON.obj []) = JSON.obj kvs →
      (kvs.lookup kLinkAvailabilityByDuration).getD (JSON.obj []) = JSON.obj entries →
      env.tzdb tz = none →
      process_hubspot_availability env doc tz bs be wd
        = Except.error (PyErr.valueError ("Unknown or invalid timezone: " ++ tz)))
    ∧ (∀ kvs v, (doc.lookup kLinkAvailability).getD (JSON.obj []) = JSON.obj kvs →
      kvs.lookup kLinkAvailabilityByDuration = some v → (∀ m, v ≠ JSON.obj m) →
      process_hubspot_availability env doc tz bs be wd = Except.ok []) := by
  constructor
  · intro kvs entries hkvs habd htz
    simp only [process_hubspot_availability]
    rw [hkvs]
    simp only [jsonGetD]
    rw [habd]
    simp only [htz]
  · intro kvs v hkvs hv hnot
    simp only [process_hubspot_availability]
    rw [hkvs]
    simp only [jsonGetD, hv, Option.getD_some]

/-- C5 counterexample: a document whose `linkAvailabilityByDuration` is
present and not a mapping makes the call return the empty mapping even
though the timezone does not resolve — no error is raised. -/
theorem c5_counterexample :
    process_hubspot_availability testEnv
      [(kLinkAvailability, JSON.obj [(kLinkAvailabilityByDuration, JSON.str ("nope"))])]
      ("Not/AZone") 9 17 none = Except.ok []
    ∧ testEnv.tzdb ("Not/AZone") = none :=
  ⟨by decide, by decide⟩

/-- C5 witness: with a missing `linkAvailability` key (so the navigation
defaults to a mapping) and an unresolvable timezone, the invalid-timezone
error is raised. -/
theorem c5_invalid_timezone_witness :
    process_hubspot_availability testEnv [] ("Not/AZone") 9 17 none
      = Except.error (PyErr.valueError ("Unknown or invalid timezone: " ++ "Not/AZone")) :=
  (c5_invalid_timezone testEnv [] ("Not/AZone") 9 17 none).1 [] [] rfl rfl (by decide)

/-- C8: the business-hours filter is never invoked — the output of
`process_hubspot_availability` is identical for any two choices of
`business_start_hour`, `business_end_hour` and `business_work_days`, on
every document and timezone. -/
theorem c8_filter_dead (env : PyEnv) (doc : List (String × JSON)) (tz : String)
    (bs1 be1 bs2 be2 : Int) (wd1 wd2 : Option (List Nat)) :
    process_hubspot_availability env doc tz bs1 be1 wd1
      = process_hubspot_availability env doc tz bs2 be2 wd2 := by
  simp only [process_hubspot_availability]
  rcases jsonGetD ((doc.lookup kLinkAvailability).getD (JSON.obj []))
      kLinkAvailabilityByDuration (JSON.obj []) with e | abd
  · rfl
  · cases abd with
    | obj entries =>
      rcases env.tzdb tz with _ | t
      · rfl
      · exact processEntriesAux_params_irrelevant env t bs1 be1 bs2 be2 wd1 wd2 entries []
    | null => rfl
    | bool b => rfl
    | int n => rfl
    | float q => rfl
    | str s => rfl
    | arr xs => rfl
